import Mathlib

/-!
Shallow embedding of the Solar single-page application (`src/src/App.tsx`).

Numbers manipulated by the JavaScript code are modelled as rationals (`ℚ`);
the slider-bound values `tilt`, `azimuth` and `shading` are integers, since
the range inputs only ever deliver whole numbers through `Number(...)`.
`parseFloat` is abstracted by its outcome, an `Option ℚ` (`none` models `NaN`).
The external `fetch` is abstracted by a `FetchOutcome` oracle: a non-ok HTTP
response, a thrown network/parse exception, or a parsed JSON body carrying
the yearly total `E_y` and the mapped monthly `E_m` values.
-/

namespace Solar

/-- `SolarData` record stored by `setSolarData` (`App.tsx` lines 16-22 and 114-120). -/
structure SolarData where
  yearlyIrradiation : ℚ
  monthlyData : List ℚ
  optimalTilt : ℚ
  optimalAzimuth : ℤ
  loss : ℤ
deriving Repr, DecidableEq

/-- The React state of `App` (`App.tsx` lines 45-53): selected position, the two
coordinate text fields, the three sliders, the loading flag, the error message
and the stored result. -/
structure AppState where
  position : Option (ℚ × ℚ)
  lat : String
  lng : String
  tilt : ℤ
  azimuth : ℤ
  shading : ℤ
  loading : Bool
  error : String
  solarData : Option SolarData
deriving Repr, DecidableEq

/-- Initial state from the `useState` defaults (`App.tsx` lines 45-53). -/
def initialState : AppState :=
  { position := none, lat := "", lng := "", tilt := 35, azimuth := 180,
    shading := 0, loading := false, error := "", solarData := none }

/-- Model of JavaScript `Number.prototype.toFixed`: decimal rendering of a
rational with `digits` fractional digits, rounding half away from zero. -/
def toFixed (digits : Nat) (q : ℚ) : String :=
  let p : ℤ := 10 ^ digits
  let scaled : ℤ := ⌊|q| * (p : ℚ) + 1/2⌋
  let ip := scaled / p
  let fp := (scaled % p).toNat
  let sign := if q < 0 then "-" else ""
  if digits = 0 then sign ++ toString ip
  else
    let fs := toString fp
    let pad := String.mk (List.replicate (digits - fs.length) (Char.ofNat 48))
    sign ++ toString ip ++ "." ++ pad ++ fs

/-- Model of JavaScript `Math.round`: round to nearest, ties toward `+∞`. -/
def jsRound (q : ℚ) : ℤ := ⌊q + 1/2⌋

/-- `handlePositionChange` (`App.tsx` lines 55-59): a map click overwrites the
position and writes both text fields formatted to 5 decimal places. -/
def handlePositionChange (pos : ℚ × ℚ) (st : AppState) : AppState :=
  { st with position := some pos, lat := toFixed 5 pos.1, lng := toFixed 5 pos.2 }

/-- `handleLatLngInput` (`App.tsx` lines 61-67): parse both text fields
(`parseFloat` outcomes given as `Option ℚ`, `none` for `NaN`); replace the
position only when both parse and both values are in range, else do nothing. -/
def handleLatLngInput (latNum lngNum : Option ℚ) (st : AppState) : AppState :=
  match latNum, lngNum with
  | some a, some b =>
      if -90 ≤ a ∧ a ≤ 90 ∧ -180 ≤ b ∧ b ≤ 180 then
        { st with position := some (a, b) }
      else st
  | _, _ => st

/-- The error message set when no position is selected (`App.tsx` line 71). -/
def noLocationError : String := "Bitte waehlen Sie einen Standort auf der Karte."

/-- The error message set by the `catch` block (`App.tsx` line 122). -/
def fetchFailedError : String :=
  "Fehler beim Abrufen der Solardaten. Bitte versuchen Sie es erneut."

/-- The plausibility warning message (`App.tsx` line 102), interpolating the
yearly value rendered with `toFixed(0)`. -/
def plausibilityWarning (ey : ℚ) : String :=
  "Warnung: Berechneter Wert (" ++ toFixed 0 ey ++
    " kWh/m2/Jahr) liegt ausserhalb des erwarteten Bereichs (800-2500)."

/-- The query parameters handed to `URLSearchParams` (`App.tsx` lines 78-87),
kept as the numeric/string values the code stringifies. -/
structure QueryParams where
  lat : ℚ
  lon : ℚ
  peakpower : ℤ
  loss : ℤ
  angle : ℤ
  aspect : ℤ
  outputformat : String
  pvtechchoice : String
deriving Repr, DecidableEq

/-- Request construction (`App.tsx` lines 78-87). -/
def buildParams (pos : ℚ × ℚ) (tilt azimuth shading : ℤ) : QueryParams :=
  { lat := pos.1, lon := pos.2, peakpower := 1, loss := shading,
    angle := tilt, aspect := azimuth - 180,
    outputformat := "json", pvtechchoice := "crystSi" }

/-- Outcome of the abstracted `fetch`/JSON-parse step: non-ok HTTP status
(`App.tsx` line 92), a thrown network/parse exception, or a parsed body giving
`outputs.totals.fixed.E_y` and the mapped `outputs.monthly.fixed[i].E_m`. -/
inductive FetchOutcome where
  | httpError : FetchOutcome
  | exception : FetchOutcome
  | success : ℚ → List ℚ → FetchOutcome
deriving Repr, DecidableEq

/-- Trace of one invocation of `calculateSolar`: the resulting state, whether
`fetch` was reached, the parameters of that request, the value of the error
field at the moment the request is issued, and whether the seasonal
`console.warn` diagnostic fired. -/
structure CalcTrace where
  state : AppState
  networkCalled : Bool
  request : Option QueryParams
  preFetchError : Option String
  seasonalWarned : Bool
deriving Repr, DecidableEq

/-- `calculateSolar` (`App.tsx` lines 69-127) as a state transition driven by a
`FetchOutcome` oracle.  With no position it only sets the error and returns.
Otherwise it sets loading, clears the error, issues the request, and on
success runs the plausibility check (warning only), the seasonal diagnostic
(log only) and stores the new `SolarData`; the `catch` block sets the generic
fetch error, and `finally` clears the loading flag. -/
def calculateSolar (st : AppState) (fetch : FetchOutcome) : CalcTrace :=
  match st.position with
  | none =>
      { state := { st with error := noLocationError },
        networkCalled := false, request := none,
        preFetchError := none, seasonalWarned := false }
  | some pos =>
      let st1 : AppState := { st with loading := true, error := "" }
      let params := buildParams pos st.tilt st.azimuth st.shading
      match fetch with
      | .httpError =>
          { state := { st1 with error := fetchFailedError, loading := false },
            networkCalled := true, request := some params,
            preFetchError := some st1.error, seasonalWarned := false }
      | .exception =>
          { state := { st1 with error := fetchFailedError, loading := false },
            networkCalled := true, request := some params,
            preFetchError := some st1.error, seasonalWarned := false }
      | .success ey monthlyData =>
          let st2 : AppState :=
            if ey < 800 ∨ ey > 2500 then
              { st1 with error := plausibilityWarning ey }
            else st1
          let isNorthernHemisphere := pos.1 > 0
          let summerMonth :=
            if isNorthernHemisphere then monthlyData.getD 5 0 else monthlyData.getD 11 0
          let winterMonth :=
            if isNorthernHemisphere then monthlyData.getD 11 0 else monthlyData.getD 5 0
          let st3 : AppState :=
            { st2 with
              solarData := some
                { yearlyIrradiation := ey,
                  monthlyData := monthlyData,
                  optimalTilt := |pos.1|,
                  optimalAzimuth := if pos.1 > 0 then 180 else 0,
                  loss := st.shading },
              loading := false }
          { state := st3, networkCalled := true, request := some params,
            preFetchError := some st1.error,
            seasonalWarned := decide (summerMonth ≤ winterMonth) }

/-- The improvement-suggestion line of the results panel (`App.tsx` lines
314-318): rendered only when the slider tilt differs from the rounded optimal
tilt, and then showing `Math.abs(tilt - optimalTilt)`. -/
def improvementLine (tilt : ℤ) (sd : SolarData) : Option ℚ :=
  if tilt = jsRound sd.optimalTilt then none
  else some |(tilt : ℚ) - sd.optimalTilt|

/-- A state with a position on the northern hemisphere, for concrete runs. -/
def northState : AppState := { initialState with position := some (48, 10) }

/-- A state with a position on the southern hemisphere, for concrete runs. -/
def southState : AppState := { initialState with position := some (-33, 151) }

/-- A plausible 12-month profile (June larger than December), for concrete runs. -/
def monthly12 : List ℚ := [30, 40, 60, 90, 120, 150, 160, 140, 100, 70, 40, 30]

/-- Evaluation lemma for `toFixed`: once the scaled-and-rounded magnitude is
known, the rendered string is fixed integer/string arithmetic. -/
theorem toFixed_eval (digits : Nat) (q : ℚ) (s : ℤ)
    (hq : ¬ q < 0)
    (h : ⌊|q| * (((10 : ℤ) ^ digits : ℤ) : ℚ) + 1/2⌋ = s) :
    toFixed digits q =
      (if digits = 0 then "" ++ toString (s / 10 ^ digits)
       else "" ++ toString (s / 10 ^ digits) ++ "." ++
         String.mk (List.replicate (digits - (toString (s % 10 ^ digits).toNat).length)
           (Char.ofNat 48)) ++ toString (s % 10 ^ digits).toNat) := by
  simp only [toFixed, h, if_neg hq]

/-- C1: with a position present and azimuth in [0, 360], tilt in [0, 90],
shadingLoss in [0, 50], the query parameters of the issued request are exactly
lat/lon from the position, peakpower = 1, loss = shadingLoss, angle = tilt,
aspect = azimuth - 180, outputformat = json and pvtechchoice = crystSi. -/
theorem calculateSolar_request_params (st : AppState) (pos : ℚ × ℚ)
    (fetch : FetchOutcome) (hpos : st.position = some pos)
    (haz : 0 ≤ st.azimuth ∧ st.azimuth ≤ 360)
    (ht : 0 ≤ st.tilt ∧ st.tilt ≤ 90)
    (hs : 0 ≤ st.shading ∧ st.shading ≤ 50) :
    (calculateSolar st fetch).request =
      some { lat := pos.1, lon := pos.2, peakpower := 1, loss := st.shading,
             angle := st.tilt, aspect := st.azimuth - 180,
             outputformat := "json", pvtechchoice := "crystSi" } := by
  rcases st with ⟨opos, la, ln, t, az, sh, lo, er, sd⟩
  obtain rfl : opos = some pos := hpos
  cases fetch <;> rfl

/-- C1 witness: a concrete run with position (48, 10) and the default sliders,
through an http error outcome. -/
theorem calculateSolar_request_params_witness :
    (calculateSolar northState .httpError).request =
      some { lat := 48, lon := 10, peakpower := 1, loss := 0,
             angle := 35, aspect := 0, outputformat := "json",
             pvtechchoice := "crystSi" } :=
  calculateSolar_request_params northState (48, 10) .httpError rfl
    (by decide) (by decide) (by decide)

/-- C4: with no position selected, `calculateSolar` sets the no-location error,
performs no network call (no request is built), and leaves the stored result
and the loading flag unchanged. -/
theorem calculateSolar_no_position (st : AppState) (fetch : FetchOutcome)
    (hpos : st.position = none) :
    (calculateSolar st fetch).networkCalled = false ∧
    (calculateSolar st fetch).request = none ∧
    (calculateSolar st fetch).state.error = noLocationError ∧
    (calculateSolar st fetch).state.solarData = st.solarData ∧
    (calculateSolar st fetch).state.loading = st.loading := by
  rcases st with ⟨opos, la, ln, t, az, sh, lo, er, sd⟩
  obtain rfl : opos = none := hpos
  exact ⟨rfl, rfl, rfl, rfl, rfl⟩

/-- C4 witness: a concrete run from the initial state, which has no position. -/
theorem calculateSolar_no_position_witness :
    (calculateSolar initialState .httpError).networkCalled = false ∧
    (calculateSolar initialState .httpError).request = none ∧
    (calculateSolar initialState .httpError).state.error = noLocationError ∧
    (calculateSolar initialState .httpError).state.solarData = initialState.solarData ∧
    (calculateSolar initialState .httpError).state.loading = initialState.loading :=
  calculateSolar_no_position initialState .httpError rfl

/-- C9: a map click always succeeds: the position is overwritten with the pair
and both text fields are set to the coordinates formatted to 5 decimal places,
nothing else changes; concretely, the click (51.1657, 10.4515) renders the
texts "51.16570" and "10.45150". -/
theorem handlePositionChange_spec (st : AppState) (p : ℚ × ℚ) :
    (handlePositionChange p st).position = some p ∧
    (handlePositionChange p st).lat = toFixed 5 p.1 ∧
    (handlePositionChange p st).lng = toFixed 5 p.2 ∧
    (handlePositionChange p st).tilt = st.tilt ∧
    (handlePositionChange p st).azimuth = st.azimuth ∧
    (handlePositionChange p st).shading = st.shading ∧
    (handlePositionChange p st).loading = st.loading ∧
    (handlePositionChange p st).error = st.error ∧
    (handlePositionChange p st).solarData = st.solarData ∧
    (handlePositionChange (511657/10000, 104515/10000) initialState).lat = "51.16570" ∧
    (handlePositionChange (511657/10000, 104515/10000) initialState).lng = "10.45150" := by
  refine ⟨rfl, rfl, rfl, rfl, rfl, rfl, rfl, rfl, rfl, ?_, ?_⟩
  · show toFixed 5 (511657/10000) = "51.16570"
    rw [toFixed_eval 5 (511657/10000) 5116570 (by norm_num)
      (by rw [abs_of_nonneg (by norm_num)]; norm_num)]
    decide
  · show toFixed 5 (104515/10000) = "10.45150"
    rw [toFixed_eval 5 (104515/10000) 1045150 (by norm_num)
      (by rw [abs_of_nonneg (by norm_num)]; norm_num)]
    decide

/-- C2: every successful calculation stores optimalTilt = |latitude| and
optimalAzimuth = 180 when latitude > 0 else 0, whatever the plausibility or
seasonal outcomes; in particular latitude 48 gives (48, 180) and latitude -33
gives (33, 0). -/
theorem calculateSolar_optimal_fields (st : AppState) (pos : ℚ × ℚ)
    (ey : ℚ) (m : List ℚ) (hpos : st.position = some pos) :
    (calculateSolar st (.success ey m)).state.solarData =
      some { yearlyIrradiation := ey, monthlyData := m,
             optimalTilt := |pos.1|,
             optimalAzimuth := if pos.1 > 0 then 180 else 0,
             loss := st.shading } ∧
    (pos.1 = 48 →
      (calculateSolar st (.success ey m)).state.solarData =
        some { yearlyIrradiation := ey, monthlyData := m, optimalTilt := 48,
               optimalAzimuth := 180, loss := st.shading }) ∧
    (pos.1 = -33 →
      (calculateSolar st (.success ey m)).state.solarData =
        some { yearlyIrradiation := ey, monthlyData := m, optimalTilt := 33,
               optimalAzimuth := 0, loss := st.shading }) := by
  rcases st with ⟨opos, la, ln, t, az, sh, lo, er, sd⟩
  obtain rfl : opos = some pos := hpos
  refine ⟨rfl, fun h48 => ?_, fun h33 => ?_⟩
  · show (calculateSolar ⟨some pos, la, ln, t, az, sh, lo, er, sd⟩
        (.success ey m)).state.solarData = _
    rw [show (calculateSolar ⟨some pos, la, ln, t, az, sh, lo, er, sd⟩
        (.success ey m)).state.solarData =
      some { yearlyIrradiation := ey, monthlyData := m, optimalTilt := |pos.1|,
             optimalAzimuth := if pos.1 > 0 then 180 else 0, loss := sh } from rfl]
    rw [h48, abs_of_pos (by norm_num : (0:ℚ) < 48), if_pos (by norm_num : (48:ℚ) > 0)]
  · rw [show (calculateSolar ⟨some pos, la, ln, t, az, sh, lo, er, sd⟩
        (.success ey m)).state.solarData =
      some { yearlyIrradiation := ey, monthlyData := m, optimalTilt := |pos.1|,
             optimalAzimuth := if pos.1 > 0 then 180 else 0, loss := sh } from rfl]
    rw [h33, if_neg (by norm_num : ¬((-33:ℚ) > 0))]
    norm_num

/-- C2 witness: a concrete successful run at latitude 48. -/
theorem calculateSolar_optimal_fields_witness :
    (calculateSolar northState (.success 1184 monthly12)).state.solarData =
      some { yearlyIrradiation := 1184, monthlyData := monthly12,
             optimalTilt := |(48:ℚ)|,
             optimalAzimuth := if (48:ℚ) > 0 then 180 else 0,
             loss := 0 } :=
  (calculateSolar_optimal_fields northState (48, 10) 1184 monthly12 rfl).1

/-- C3: manual coordinate entry replaces the position exactly when both fields
parse (parseFloat outcomes modelled as `Option ℚ`, `none` for NaN) and the
values are in range [-90, 90] x [-180, 180]; otherwise the whole state — in
particular the position and the error message — is unchanged. -/
theorem handleLatLngInput_spec (latNum lngNum : Option ℚ) (st : AppState) :
    (∀ a b, latNum = some a → lngNum = some b →
      (-90 ≤ a ∧ a ≤ 90 ∧ -180 ≤ b ∧ b ≤ 180) →
        handleLatLngInput latNum lngNum st = { st with position := some (a, b) }) ∧
    ((∀ a b, latNum = some a → lngNum = some b →
        ¬(-90 ≤ a ∧ a ≤ 90 ∧ -180 ≤ b ∧ b ≤ 180)) →
      handleLatLngInput latNum lngNum st = st ∧
      (handleLatLngInput latNum lngNum st).error = st.error) := by
  constructor
  · rintro a b rfl rfl h
    simp only [handleLatLngInput, if_pos h]
  · intro h
    have hst : handleLatLngInput latNum lngNum st = st := by
      match latNum, lngNum with
      | none, none => rfl
      | none, some b => rfl
      | some a, none => rfl
      | some a, some b =>
        simp only [handleLatLngInput, if_neg (h a b rfl rfl)]
    exact ⟨hst, by rw [hst]⟩

/-- C3 witness: an in-range pair replaces the position; an out-of-range
latitude (91) leaves the initial state untouched. -/
theorem handleLatLngInput_spec_witness :
    handleLatLngInput (some 48) (some 10) initialState =
      { initialState with position := some (48, 10) } ∧
    handleLatLngInput (some 91) (some 10) initialState = initialState :=
  ⟨(handleLatLngInput_spec (some 48) (some 10) initialState).1 48 10 rfl rfl
      (by norm_num),
   ((handleLatLngInput_spec (some 91) (some 10) initialState).2
      (by rintro a b ⟨rfl⟩ ⟨rfl⟩ ⟨h1, h2, h3, h4⟩; norm_num at h2)).1⟩

/-- C5: on a successful response, a yearly value outside [800, 2500] produces
the plausibility warning while the result is still stored with that value and
the 12 monthly figures; a value inside [800, 2500] produces no warning (the
error field stays cleared) and the result is stored the same way. -/
theorem calculateSolar_plausibility (st : AppState) (pos : ℚ × ℚ)
    (ey : ℚ) (m : List ℚ) (hpos : st.position = some pos)
    (_hm : m.length = 12) :
    ((ey < 800 ∨ ey > 2500) →
      (calculateSolar st (.success ey m)).state.error = plausibilityWarning ey ∧
      (calculateSolar st (.success ey m)).state.solarData =
        some { yearlyIrradiation := ey, monthlyData := m,
               optimalTilt := |pos.1|,
               optimalAzimuth := if pos.1 > 0 then 180 else 0,
               loss := st.shading }) ∧
    (800 ≤ ey ∧ ey ≤ 2500 →
      (calculateSolar st (.success ey m)).state.error = "" ∧
      (calculateSolar st (.success ey m)).state.solarData =
        some { yearlyIrradiation := ey, monthlyData := m,
               optimalTilt := |pos.1|,
               optimalAzimuth := if pos.1 > 0 then 180 else 0,
               loss := st.shading }) := by
  rcases st with ⟨opos, la, ln, t, az, sh, lo, er, sd⟩
  obtain rfl : opos = some pos := hpos
  constructor
  · intro h
    refine ⟨?_, rfl⟩
    show ((if ey < 800 ∨ ey > 2500 then _ else _ : AppState)).error = _
    rw [if_pos h]
  · intro h
    refine ⟨?_, rfl⟩
    show ((if ey < 800 ∨ ey > 2500 then _ else _ : AppState)).error = _
    rw [if_neg (by rintro (h1 | h2) <;> linarith [h.1, h.2])]

/-- C5 witness: at position (48, 10), a mocked response with yearly value 500
(outside the plausible range) yields the warning and still stores the result;
the hypotheses are discharged at this concrete input. -/
theorem calculateSolar_plausibility_witness :
    ((500:ℚ) < 800 ∨ (500:ℚ) > 2500) ∧
    ((calculateSolar northState (.success 500 monthly12)).state.error =
        plausibilityWarning 500 ∧
      (calculateSolar northState (.success 500 monthly12)).state.solarData =
        some { yearlyIrradiation := 500, monthlyData := monthly12,
               optimalTilt := |(48:ℚ)|,
               optimalAzimuth := if (48:ℚ) > 0 then 180 else 0,
               loss := 0 }) :=
  ⟨Or.inl (by norm_num),
   (calculateSolar_plausibility northState (48, 10) 500 monthly12 rfl rfl).1
     (Or.inl (by norm_num))⟩

/-- A previously stored result, used to exhibit retention across a failure. -/
def priorResult : SolarData :=
  { yearlyIrradiation := 1184, monthlyData := monthly12,
    optimalTilt := 48, optimalAzimuth := 180, loss := 0 }

/-- A state that already holds a result from an earlier successful run. -/
def stateWithResult : AppState :=
  { initialState with position := some (48, 10), solarData := some priorResult }

/-- C6 counterexample: a failed query does not leave the stored result absent —
starting from a state holding a prior result, a non-ok HTTP response leaves
that same result in place (the catch path never clears `solarData`). -/
theorem failed_query_retains_result :
    (calculateSolar stateWithResult .httpError).state.error = fetchFailedError ∧
    (calculateSolar stateWithResult .httpError).state.solarData =
      some priorResult := ⟨rfl, rfl⟩

/-- C6 amended: a failed calculation (non-ok status or exception) leaves the
stored result unchanged — so a result can only ever appear through a
successful query — and every successful calculation replaces the stored
result wholesale with the freshly built record. -/
theorem calculateSolar_result_replacement (st : AppState) (pos : ℚ × ℚ)
    (ey : ℚ) (m : List ℚ) (hpos : st.position = some pos) :
    (calculateSolar st .httpError).state.solarData = st.solarData ∧
    (calculateSolar st .exception).state.solarData = st.solarData ∧
    (calculateSolar st (.success ey m)).state.solarData =
      some { yearlyIrradiation := ey, monthlyData := m,
             optimalTilt := |pos.1|,
             optimalAzimuth := if pos.1 > 0 then 180 else 0,
             loss := st.shading } := by
  rcases st with ⟨opos, la, ln, t, az, sh, lo, er, sd⟩
  obtain rfl : opos = some pos := hpos
  exact ⟨rfl, rfl, rfl⟩

/-- C6 amended witness: concrete runs from the prior-result state. -/
theorem calculateSolar_result_replacement_witness :
    (calculateSolar stateWithResult .httpError).state.solarData =
      stateWithResult.solarData ∧
    (calculateSolar stateWithResult .exception).state.solarData =
      stateWithResult.solarData ∧
    (calculateSolar stateWithResult (.success 1500 monthly12)).state.solarData =
      some { yearlyIrradiation := 1500, monthlyData := monthly12,
             optimalTilt := |(48:ℚ)|,
             optimalAzimuth := if (48:ℚ) > 0 then 180 else 0,
             loss := 0 } :=
  calculateSolar_result_replacement stateWithResult (48, 10) 1500 monthly12 rfl

/-- C7: the improvement line is rendered exactly when the slider tilt differs
from the rounded optimal tilt, and then shows |tilt - optimalTilt|; with
tilt 35 and an optimal tilt rounding to 35 no line is shown, and with tilt 20
and optimal tilt 48 the shown figure is 28. -/
theorem improvementLine_spec (tilt : ℤ) (sd : SolarData) :
    (improvementLine tilt sd = none ↔ tilt = jsRound sd.optimalTilt) ∧
    (tilt ≠ jsRound sd.optimalTilt →
      improvementLine tilt sd = some |(tilt : ℚ) - sd.optimalTilt|) ∧
    (sd.optimalTilt = 353/10 → improvementLine 35 sd = none) ∧
    (sd.optimalTilt = 48 → improvementLine 20 sd = some 28) := by
  refine ⟨?_, ?_, ?_, ?_⟩
  · by_cases h : tilt = jsRound sd.optimalTilt <;> simp [improvementLine, h]
  · intro h; simp [improvementLine, h]
  · intro h35
    have : jsRound sd.optimalTilt = 35 := by
      rw [h35]; unfold jsRound; norm_num
    simp [improvementLine, this]
  · intro h48
    have : jsRound sd.optimalTilt = 48 := by
      rw [h48]; unfold jsRound; norm_num
    rw [improvementLine, if_neg (by rw [this]; decide), h48]
    norm_num

/-- C7 witness: concrete stored results with optimal tilts 35.3 and 48. -/
theorem improvementLine_spec_witness :
    improvementLine 35 ⟨1500, monthly12, 353/10, 180, 0⟩ = none ∧
    improvementLine 20 ⟨1500, monthly12, 48, 180, 0⟩ = some 28 :=
  ⟨(improvementLine_spec 35 ⟨1500, monthly12, 353/10, 180, 0⟩).2.2.1 rfl,
   (improvementLine_spec 20 ⟨1500, monthly12, 48, 180, 0⟩).2.2.2 rfl⟩

/-- C8: the seasonal diagnostic fires exactly when the summer month (June for
latitude > 0, December otherwise) does not exceed the winter month (December
for latitude > 0, June otherwise), and it has no effect: the stored result,
the error message and the cleared loading flag are those of the plausibility
path alone, whether or not the anomaly is detected. -/
theorem calculateSolar_seasonal (st : AppState) (pos : ℚ × ℚ)
    (ey : ℚ) (m : List ℚ) (hpos : st.position = some pos)
    (_hm : m.length = 12) :
    ((calculateSolar st (.success ey m)).seasonalWarned = true ↔
      (if pos.1 > 0 then m.getD 5 0 else m.getD 11 0) ≤
        (if pos.1 > 0 then m.getD 11 0 else m.getD 5 0)) ∧
    (calculateSolar st (.success ey m)).state.solarData =
      some { yearlyIrradiation := ey, monthlyData := m,
             optimalTilt := |pos.1|,
             optimalAzimuth := if pos.1 > 0 then 180 else 0,
             loss := st.shading } ∧
    (calculateSolar st (.success ey m)).state.error =
      (if ey < 800 ∨ ey > 2500 then plausibilityWarning ey else "") ∧
    (calculateSolar st (.success ey m)).state.loading = false := by
  rcases st with ⟨opos, la, ln, t, az, sh, lo, er, sd⟩
  obtain rfl : opos = some pos := hpos
  refine ⟨decide_eq_true_iff, rfl, ?_, rfl⟩
  show ((if ey < 800 ∨ ey > 2500 then _ else _ : AppState)).error = _
  by_cases hc : ey < 800 ∨ ey > 2500
  · rw [if_pos hc, if_pos hc]
  · rw [if_neg hc, if_neg hc]

/-- C8 witness: a southern-hemisphere run (latitude -33) whose December value
exceeds its June value, so no anomaly is flagged; the hypotheses are
discharged at this concrete input. -/
theorem calculateSolar_seasonal_witness :
    ((calculateSolar southState (.success 1800 monthly12)).seasonalWarned = true ↔
      (if (-33:ℚ) > 0 then monthly12.getD 5 0 else monthly12.getD 11 0) ≤
        (if (-33:ℚ) > 0 then monthly12.getD 11 0 else monthly12.getD 5 0)) ∧
    (calculateSolar southState (.success 1800 monthly12)).state.solarData =
      some { yearlyIrradiation := 1800, monthlyData := monthly12,
             optimalTilt := |(-33:ℚ)|,
             optimalAzimuth := if (-33:ℚ) > 0 then 180 else 0,
             loss := 0 } ∧
    (calculateSolar southState (.success 1800 monthly12)).state.error =
      (if (1800:ℚ) < 800 ∨ (1800:ℚ) > 2500 then plausibilityWarning 1800 else "") ∧
    (calculateSolar southState (.success 1800 monthly12)).state.loading = false :=
  calculateSolar_seasonal southState (-33, 151) 1800 monthly12 rfl rfl

/-- C10: with a position present, the error message is cleared at the moment
the request is issued (so no earlier warning or failure message survives into
this call's outcome — the final message depends only on this call's fetch
outcome), and the loading flag is false once the call completes, on success
and on failure alike. -/
theorem calculateSolar_reset (st : AppState) (pos : ℚ × ℚ)
    (fetch : FetchOutcome) (hpos : st.position = some pos) :
    (calculateSolar st fetch).preFetchError = some "" ∧
    (calculateSolar st fetch).state.loading = false ∧
    (calculateSolar st fetch).state.error =
      (match fetch with
       | .httpError => fetchFailedError
       | .exception => fetchFailedError
       | .success ey _ =>
           if ey < 800 ∨ ey > 2500 then plausibilityWarning ey else "") := by
  rcases st with ⟨opos, la, ln, t, az, sh, lo, er, sd⟩
  obtain rfl : opos = some pos := hpos
  cases fetch with
  | httpError => exact ⟨rfl, rfl, rfl⟩
  | exception => exact ⟨rfl, rfl, rfl⟩
  | success ey m =>
    refine ⟨rfl, rfl, ?_⟩
    show ((if ey < 800 ∨ ey > 2500 then _ else _ : AppState)).error =
      (if ey < 800 ∨ ey > 2500 then plausibilityWarning ey else "")
    by_cases hc : ey < 800 ∨ ey > 2500
    · rw [if_pos hc, if_pos hc]
    · rw [if_neg hc, if_neg hc]

/-- C10 witness: a run from a state carrying a stale error message, through a
successful in-range response: the message is cleared before the request and
stays empty, and loading ends false. -/
theorem calculateSolar_reset_witness :
    (calculateSolar { northState with error := fetchFailedError }
        (.success 1184 monthly12)).preFetchError = some "" ∧
    (calculateSolar { northState with error := fetchFailedError }
        (.success 1184 monthly12)).state.loading = false ∧
    (calculateSolar { northState with error := fetchFailedError }
        (.success 1184 monthly12)).state.error =
      (if (1184:ℚ) < 800 ∨ (1184:ℚ) > 2500 then plausibilityWarning 1184 else "") :=
  calculateSolar_reset { northState with error := fetchFailedError }
    (48, 10) (.success 1184 monthly12) rfl

end Solar
